import Mathlib

/-!
Shallow embedding of `src/python/medifor/v1/analyticservice.py`.

The embedding models the endpoint registry (`_RegisterImpl` and the four
public wrappers), the dispatch core (`_CallEndpoint`), and the FIFO pipe
transport (`send`, `receive`, `serveOnce`, `close`, `Run`).

Modelling conventions:
* Python exceptions raised by a handler are represented by the
  `HandlerResult` sum: a handler either returns normally or raises a
  `ValueError`, a `NotImplementedError`, or some other exception.  Because
  handlers mutate their response argument in place, every `HandlerResult`
  constructor carries the state of the response object at the moment the
  handler returned or raised.
* `ctx.abort(code, details)` terminates the dispatch; `_CallEndpoint`
  therefore returns a `CallOutcome`, whose `abort` constructor also records
  the state of the shared response object when the abort fired.
* `grpc.StatusCode` is a Python `enum.Enum`; `str()` of one of its members
  renders as `StatusCode.<MEMBER_NAME>` (standard `enum` behaviour), which
  is what `StatusCode.pyStr` computes.
* Python `repr` of the endpoint-type strings used here (plain identifiers,
  no quotes or escapes inside) wraps the text in single quotes; `pyRepr`
  models exactly that fragment of `repr`.
-/

set_option autoImplicit false

namespace Medifor

/-- Result of invoking a handler on a request and an in-place mutable
response: either a normal return or one of the three exception classes
distinguished by `_CallEndpoint`.  Each constructor records the final state
of the response object. -/
inductive HandlerResult (Resp : Type) where
  | ok (resp : Resp)
  | valueError (msg : String) (resp : Resp)
  | notImplementedError (msg : String) (resp : Resp)
  | otherError (diag : String) (resp : Resp)
  deriving DecidableEq

/-- A registered endpoint implementation: takes the request and the response
object, returns the `HandlerResult` describing how the invocation ended. -/
def Handler (Req Resp : Type) : Type :=
  Req → Resp → HandlerResult Resp

/-- The subset of `grpc.StatusCode` members used by `analyticservice.py`. -/
inductive StatusCode where
  | OK
  | INVALID_ARGUMENT
  | UNIMPLEMENTED
  | UNKNOWN
  deriving DecidableEq

/-- Python `str()` of a `grpc.StatusCode` enum member: `enum.Enum.__str__`
renders `ClassName.MEMBER_NAME`. -/
def StatusCode.pyStr : StatusCode → String
  | .OK => "StatusCode.OK"
  | .INVALID_ARGUMENT => "StatusCode.INVALID_ARGUMENT"
  | .UNIMPLEMENTED => "StatusCode.UNIMPLEMENTED"
  | .UNKNOWN => "StatusCode.UNKNOWN"

/-- Python `repr` of a simple string (no quotes or escapes inside): the text
wrapped in single quotes, as produced by the `{!r}` format conversions in
`analyticservice.py`. -/
def pyRepr (s : String) : String :=
  "\x27" ++ s ++ "\x27"

/-- Class constant `AnalyticService.IMAGE_MANIPULATION`. -/
def IMAGE_MANIPULATION : String := "ImageManipulation"

/-- Class constant `AnalyticService.VIDEO_MANIPULATION`. -/
def VIDEO_MANIPULATION : String := "VideoManipulation"

/-- Class constant `AnalyticService.IMAGE_SPLICE`. -/
def IMAGE_SPLICE : String := "ImageSplice"

/-- Class constant `AnalyticService.IMAGE_CAMERA_MATCH`. -/
def IMAGE_CAMERA_MATCH : String := "ImageCameraMatch"

/-- Class constant `AnalyticService._ALLOWED_IMPLS` (a frozenset in the
source; membership is all that is ever used). -/
def ALLOWED_IMPLS : List String :=
  [IMAGE_MANIPULATION, VIDEO_MANIPULATION, IMAGE_SPLICE, IMAGE_CAMERA_MATCH]

/-- State of an `AnalyticService` object: the `_impls` registry, a mapping
from endpoint-type name to handler (a dict in the source, modelled as an
association list looked up by key). -/
structure AnalyticService (Req Resp : Type) where
  impls : List (String × Handler Req Resp)

/-- Observable outcome of a call to `_RegisterImpl`: `ret` is the returned
value (`self`) or the raised `ValueError` message, and `state` is the state
of the service object after the call. -/
structure RegOutcome (Req Resp : Type) where
  ret : Except String (AnalyticService Req Resp)
  state : AnalyticService Req Resp

/-- Embedding of `AnalyticService._RegisterImpl`: reject type names outside
`_ALLOWED_IMPLS`, reject duplicate registration, otherwise store the mapping
and return `self`. -/
def RegisterImpl {Req Resp : Type} (svc : AnalyticService Req Resp)
    (typeName : String) (f : Handler Req Resp) : RegOutcome Req Resp :=
  if ¬ (ALLOWED_IMPLS.contains typeName) then
    ⟨.error ("unknown implementation type " ++ typeName ++ " specified"), svc⟩
  else if (svc.impls.lookup typeName).isSome then
    ⟨.error ("implementation for " ++ typeName ++ " already present"), svc⟩
  else
    let svc2 : AnalyticService Req Resp := ⟨(typeName, f) :: svc.impls⟩
    ⟨.ok svc2, svc2⟩

/-- Embedding of `AnalyticService.RegisterImageManipulation`. -/
def RegisterImageManipulation {Req Resp : Type} (svc : AnalyticService Req Resp)
    (f : Handler Req Resp) : RegOutcome Req Resp :=
  RegisterImpl svc IMAGE_MANIPULATION f

/-- Embedding of `AnalyticService.RegisterVideoManipulation`. -/
def RegisterVideoManipulation {Req Resp : Type} (svc : AnalyticService Req Resp)
    (f : Handler Req Resp) : RegOutcome Req Resp :=
  RegisterImpl svc VIDEO_MANIPULATION f

/-- Embedding of `AnalyticService.RegisterImageSplice`. -/
def RegisterImageSplice {Req Resp : Type} (svc : AnalyticService Req Resp)
    (f : Handler Req Resp) : RegOutcome Req Resp :=
  RegisterImpl svc IMAGE_SPLICE f

/-- Embedding of `AnalyticService.RegisterImageCameraMatch`. -/
def RegisterImageCameraMatch {Req Resp : Type} (svc : AnalyticService Req Resp)
    (f : Handler Req Resp) : RegOutcome Req Resp :=
  RegisterImpl svc IMAGE_CAMERA_MATCH f

/-- Outcome of `_CallEndpoint`: a normal return of the (handler-populated)
response, or a `ctx.abort(code, details)`.  The `abort` constructor also
records the state of the shared response object at the moment of the abort,
so that frame conditions about it can be stated. -/
inductive CallOutcome (Resp : Type) where
  | ok (resp : Resp)
  | abort (code : StatusCode) (details : String) (resp : Resp)
  deriving DecidableEq

/-- Embedding of `AnalyticService._CallEndpoint`: look up the handler,
abort `UNIMPLEMENTED` when absent, otherwise invoke it and classify any
exception it raises into the three abort categories of the source. -/
def CallEndpoint {Req Resp : Type} (impls : List (String × Handler Req Resp))
    (epType : String) (req : Req) (resp : Resp) : CallOutcome Resp :=
  match impls.lookup epType with
  | none =>
      .abort .UNIMPLEMENTED ("Endpoint " ++ pyRepr epType ++ " not implemented") resp
  | some epFunc =>
      match epFunc req resp with
      | .ok r => .ok r
      | .valueError m r =>
          .abort .INVALID_ARGUMENT
            ("Endpoint " ++ pyRepr epType ++ " invalid input: " ++ m) r
      | .notImplementedError m r =>
          .abort .UNIMPLEMENTED
            ("Endpoint " ++ pyRepr epType ++ " not implemented: " ++ m) r
      | .otherError d r =>
          .abort .UNKNOWN
            ("Error processing endpoint " ++ pyRepr epType ++ ": " ++ d) r

/-- Substring containment, used to state that abort messages carry the
endpoint type and the handler message. -/
def ContainsStr (s sub : String) : Prop :=
  ∃ pre post, s = pre ++ (sub ++ post)

/-- Python exceptions that can cross the `serveOnce` boundary.  Everything
except the abort carrier `FIFOContextAbortedError` (which `serveOnce`
catches and encodes) is represented here. -/
inductive PyErr where
  | jsonDecodeError (msg : String)
  | valueErrorExc (msg : String)
  | keyError (key : String)
  | parseDictError (msg : String)
  | fifoTimeout (op : String) (timeout : Nat)
  deriving DecidableEq

/-- Message built by the `FIFOTimeoutError` constructor from its `op` and
`timeout` arguments. -/
def fifoTimeoutMsg (op : String) (timeout : Nat) : String :=
  "timed out with op " ++ pyRepr op ++ " after " ++ toString timeout ++ " seconds"

/-- Result of `AnalyticServiceFIFO.send`: either a raised `FIFOTimeoutError`
(identified by the `op` and `timeout` it was constructed from) or the exact
byte string written to and flushed down the outbound pipe. -/
inductive SendResult where
  | timedOut (op : String) (timeout : Nat)
  | wrote (written : String)
  deriving DecidableEq

/-- Embedding of `AnalyticServiceFIFO.send`.  The boolean `ready` abstracts
whether `select` reports the outbound pipe writable within `timeout`
seconds; with `timeout = 0` the `select` call gets no timeout argument and
blocks until the pipe is writable, so no timeout error can occur. -/
def send (data : String) (timeout : Nat) (ready : Bool) : SendResult :=
  if timeout ≠ 0 ∧ ready = false then .timedOut "write" timeout
  else .wrote (data ++ "\n")

/-- Result of `AnalyticServiceFIFO.receive`: a raised `FIFOTimeoutError` or
the one line returned by `readline`. -/
inductive RecvResult where
  | timedOut (op : String) (timeout : Nat)
  | received (line : String)
  deriving DecidableEq

/-- Embedding of `AnalyticServiceFIFO.receive`, symmetric to `send`:
`ready` abstracts whether `select` reports inbound data within `timeout`
seconds, and `nextLine` is the line `readline` yields. -/
def receive (timeout : Nat) (ready : Bool) (nextLine : String) : RecvResult :=
  if timeout ≠ 0 ∧ ready = false then .timedOut "read" timeout
  else .received nextLine

/-- Class constant `AnalyticServiceFIFO.TYPES`, restricted to the data the
dispatch step consumes: the wire short code and the endpoint type it maps
to.  The per-code request and response constructors of the source appear in
the embedding as the `parseDict` argument (which builds the request from
the decoded `value` field) and the `zeroResp` argument of `serveOnce`. -/
def TYPES : List (String × String) :=
  [("imgmanip", IMAGE_MANIPULATION),
   ("vidmanip", VIDEO_MANIPULATION),
   ("imgsplice", IMAGE_SPLICE),
   ("imgcammatch", IMAGE_CAMERA_MATCH)]

/-- Result of `json.loads` on a received line, restricted to the shape
`serveOnce` inspects: an optional `type` field and an optional `value`
field (of an abstract decoded-JSON type `V`). -/
structure PipeMsg (V : Type) where
  typeField : Option String
  valueField : Option V
  deriving DecidableEq

/-- Rendering of `json.dumps` on the failure dict `\x7b"code": c,
"value": v\x7d` for field strings that need no JSON escaping: insertion
order is preserved and the default separators put a space after the colon
and the comma. -/
def jsonDumpFailure (c v : String) : String :=
  "\x7b\"code\": \"" ++ c ++ "\", \"value\": \"" ++ v ++ "\"\x7d"

/-- Outcome of one `serveOnce` step: the success line was sent (carrying
the response object, serialized by `MessageToDict`), the exact failure line
was sent, or an exception propagated and nothing was sent. -/
inductive ServeResult (Resp : Type) where
  | sentOK (resp : Resp)
  | sentFailureLine (line : String)
  | raised (e : PyErr)
  deriving DecidableEq

/-- Embedding of `AnalyticServiceFIFO.serveOnce`.  The argument `recv` is
the combined result of the blocking `receive()` call and `json.loads` on
the line it returned; `parseDict` abstracts `json_format.ParseDict` for the
request shape selected by the wire short code.  Only the abort carrier
`FIFOContextAbortedError` is caught and encoded; every other exception
escapes as `raised`. -/
def serveOnce {Req Resp V : Type} (impls : List (String × Handler Req Resp))
    (parseDict : String → V → Except String Req) (zeroResp : Resp)
    (recv : Except PyErr (PipeMsg V)) : ServeResult Resp :=
  match recv with
  | .error e => .raised e
  | .ok m =>
      match m.typeField with
      | none => .raised (.valueErrorExc "Message had no \x27type\x27 field")
      | some code =>
          match TYPES.lookup code with
          | none => .raised (.keyError code)
          | some callType =>
              match m.valueField with
              | none => .raised (.keyError "value")
              | some v =>
                  match parseDict code v with
                  | .error pe => .raised (.parseDictError pe)
                  | .ok req =>
                      match CallEndpoint impls callType req zeroResp with
                      | .ok r => .sentOK r
                      | .abort c d _ => .sentFailureLine (jsonDumpFailure c.pyStr d)

/-- A `serveOnce` step ended with a structured outcome line on the outbound
pipe (either the success line or a failure line). -/
def IsStructuredOutcome {Resp : Type} : ServeResult Resp → Prop
  | .sentOK _ => True
  | .sentFailureLine _ => True
  | .raised _ => False

/-- Embedding of the serving loop of `AnalyticServiceFIFO.Run`, iterated
over a finite schedule of incoming events: each completed step contributes
its outcome, and the first propagating exception terminates the loop. -/
def runPipe {Req Resp V : Type} (impls : List (String × Handler Req Resp))
    (parseDict : String → V → Except String Req) (zeroResp : Resp) :
    List (Except PyErr (PipeMsg V)) → List (ServeResult Resp) × Option PyErr
  | [] => ([], none)
  | ev :: rest =>
      match serveOnce impls parseDict zeroResp ev with
      | .raised e => ([], some e)
      | .sentOK r =>
          let tail := runPipe impls parseDict zeroResp rest
          (.sentOK r :: tail.1, tail.2)
      | .sentFailureLine l =>
          let tail := runPipe impls parseDict zeroResp rest
          (.sentFailureLine l :: tail.1, tail.2)

/-- Events on the shared lock and pipe handles, used to state that the
protocol step and `close` bracket their pipe accesses with the same
mutual-exclusion lock. -/
inductive PipeEvent where
  | acquireLock
  | releaseLock
  | recvLine
  | sendLine
  | closeReceiver
  | closeSender
  deriving DecidableEq

/-- Whether the `receive()` call inside `serveOnce` returned a line: it did
unless `receive` itself raised (a timeout); a `json.loads` failure happens
after the line was read. -/
def recvReturnedLine {V : Type} : Except PyErr (PipeMsg V) → Bool
  | .error (.fifoTimeout _ _) => false
  | .error _ => true
  | .ok _ => true

/-- Pipe-handle events of one `serveOnce` step, in order: the receive of
the request line when it happened, then the send of the outcome line when
one was sent. -/
def serveOnceBodyEvents {Req Resp V : Type}
    (impls : List (String × Handler Req Resp))
    (parseDict : String → V → Except String Req) (zeroResp : Resp)
    (recv : Except PyErr (PipeMsg V)) : List PipeEvent :=
  (if recvReturnedLine recv then [PipeEvent.recvLine] else []) ++
    (match serveOnce impls parseDict zeroResp recv with
     | .sentOK _ => [PipeEvent.sendLine]
     | .sentFailureLine _ => [PipeEvent.sendLine]
     | .raised _ => [])

/-- Event trace of `serveOnce`: the whole step runs inside
`with self.lock`, which releases the lock also when an exception
propagates. -/
def serveOnceTrace {Req Resp V : Type}
    (impls : List (String × Handler Req Resp))
    (parseDict : String → V → Except String Req) (zeroResp : Resp)
    (recv : Except PyErr (PipeMsg V)) : List PipeEvent :=
  PipeEvent.acquireLock ::
    (serveOnceBodyEvents impls parseDict zeroResp recv ++ [PipeEvent.releaseLock])

/-- Pipe-handle events of `AnalyticServiceFIFO.close`: whichever handles
are open are closed. -/
def closeBodyEvents (receiverOpen senderOpen : Bool) : List PipeEvent :=
  (if receiverOpen then [PipeEvent.closeReceiver] else []) ++
    (if senderOpen then [PipeEvent.closeSender] else [])

/-- Event trace of `AnalyticServiceFIFO.close`: the handle accesses happen
under the same `self.lock` used by `serveOnce`. -/
def closeTrace (receiverOpen senderOpen : Bool) : List PipeEvent :=
  PipeEvent.acquireLock ::
    (closeBodyEvents receiverOpen senderOpen ++ [PipeEvent.releaseLock])

/-- Containment helper: the text quoted by `pyRepr` is contained in a
message built around it, also when further text follows. -/
theorem containsStr_pyRepr_mid (a b m t : String) :
    ContainsStr (a ++ pyRepr t ++ b ++ m) t :=
  ⟨a ++ "\x27", "\x27" ++ b ++ m, by simp [pyRepr, String.append_assoc]⟩

/-- Containment helper: the text quoted by `pyRepr` is contained in a
message built around it. -/
theorem containsStr_pyRepr_end (a b t : String) :
    ContainsStr (a ++ pyRepr t ++ b) t :=
  ⟨a ++ "\x27", "\x27" ++ b, by simp [pyRepr, String.append_assoc]⟩

/-- Containment helper: a string contains its final append component. -/
theorem containsStr_last (a m : String) : ContainsStr (a ++ m) m :=
  ⟨a, "", by rw [String.append_empty]⟩

/-- Containment helper: a string contains a middle append component. -/
theorem containsStr_mid (a b sub : String) : ContainsStr (a ++ (sub ++ b)) sub :=
  ⟨a, b, rfl⟩

/-- The timeout message built by `FIFOTimeoutError` carries the operation
name. -/
theorem fifoTimeoutMsg_contains_op (op : String) (t : Nat) :
    ContainsStr (fifoTimeoutMsg op t) op := by
  have h : fifoTimeoutMsg op t =
      "timed out with op " ++ pyRepr op ++ " after " ++ (toString t ++ " seconds") := by
    simp [fifoTimeoutMsg, String.append_assoc]
  rw [h]
  exact containsStr_pyRepr_mid _ _ _ _

/-- The timeout message built by `FIFOTimeoutError` carries the rendered
timeout value. -/
theorem fifoTimeoutMsg_contains_timeout (op : String) (t : Nat) :
    ContainsStr (fifoTimeoutMsg op t) (toString t) := by
  have h : fifoTimeoutMsg op t =
      ("timed out with op " ++ pyRepr op ++ " after ") ++ (toString t ++ " seconds") := by
    simp [fifoTimeoutMsg, String.append_assoc]
  rw [h]
  exact containsStr_mid _ _ _

/-- Claim C1: for every registered endpoint type, a handler failure becomes
exactly one categorized abort: a `ValueError` aborts with `INVALID_ARGUMENT`
and a message containing the endpoint type and the handler message; a
`NotImplementedError` aborts with `UNIMPLEMENTED` and a message containing
the handler message; any other exception aborts with `UNKNOWN` and a
diagnostic message containing the formatted traceback. -/
theorem claim1_dispatch_failure_classification {Req Resp : Type}
    (impls : List (String × Handler Req Resp)) (epType : String)
    (f : Handler Req Resp) (req : Req) (resp : Resp)
    (hf : impls.lookup epType = some f) :
    (∀ m r, f req resp = .valueError m r →
        CallEndpoint impls epType req resp =
          .abort .INVALID_ARGUMENT
            ("Endpoint " ++ pyRepr epType ++ " invalid input: " ++ m) r ∧
        ContainsStr ("Endpoint " ++ pyRepr epType ++ " invalid input: " ++ m) epType ∧
        ContainsStr ("Endpoint " ++ pyRepr epType ++ " invalid input: " ++ m) m) ∧
    (∀ m r, f req resp = .notImplementedError m r →
        CallEndpoint impls epType req resp =
          .abort .UNIMPLEMENTED
            ("Endpoint " ++ pyRepr epType ++ " not implemented: " ++ m) r ∧
        ContainsStr ("Endpoint " ++ pyRepr epType ++ " not implemented: " ++ m) m) ∧
    (∀ g r, f req resp = .otherError g r →
        CallEndpoint impls epType req resp =
          .abort .UNKNOWN
            ("Error processing endpoint " ++ pyRepr epType ++ ": " ++ g) r ∧
        ContainsStr ("Error processing endpoint " ++ pyRepr epType ++ ": " ++ g) g) := by
  refine ⟨?_, ?_, ?_⟩
  · intro m r hm
    exact ⟨by simp [CallEndpoint, hf, hm],
      containsStr_pyRepr_mid "Endpoint " " invalid input: " m epType,
      containsStr_last ("Endpoint " ++ pyRepr epType ++ " invalid input: ") m⟩
  · intro m r hm
    exact ⟨by simp [CallEndpoint, hf, hm],
      containsStr_last ("Endpoint " ++ pyRepr epType ++ " not implemented: ") m⟩
  · intro g r hg
    exact ⟨by simp [CallEndpoint, hf, hg],
      containsStr_last ("Error processing endpoint " ++ pyRepr epType ++ ": ") g⟩

/-- Witness for C1: a concrete registry whose handler raises
`ValueError("bad crop")` yields the `INVALID_ARGUMENT` abort. -/
theorem claim1_witness :
    CallEndpoint
        [("ImageManipulation",
          fun (_ : Nat) (r : Nat) => HandlerResult.valueError "bad crop" r)]
        "ImageManipulation" 0 7 =
      .abort .INVALID_ARGUMENT
        ("Endpoint " ++ pyRepr "ImageManipulation" ++ " invalid input: " ++ "bad crop") 7 ∧
    ContainsStr
      ("Endpoint " ++ pyRepr "ImageManipulation" ++ " invalid input: " ++ "bad crop")
      "ImageManipulation" ∧
    ContainsStr
      ("Endpoint " ++ pyRepr "ImageManipulation" ++ " invalid input: " ++ "bad crop")
      "bad crop" :=
  (claim1_dispatch_failure_classification
      [("ImageManipulation",
        fun (_ : Nat) (r : Nat) => HandlerResult.valueError "bad crop" r)]
      "ImageManipulation"
      (fun (_ : Nat) (r : Nat) => HandlerResult.valueError "bad crop" r)
      0 7 rfl).1 "bad crop" 7 rfl

/-- Claim C2: registration rejects unknown type names and duplicate
registrations, leaving the registry unchanged in both failure cases (so the
first registration stays active); otherwise it stores the mapping, and a
registration call never replaces or removes an existing entry. -/
theorem claim2_register_errors {Req Resp : Type} (svc : AnalyticService Req Resp)
    (typeName : String) (f : Handler Req Resp) :
    (typeName ∉ ALLOWED_IMPLS →
        RegisterImpl svc typeName f =
          ⟨.error ("unknown implementation type " ++ typeName ++ " specified"), svc⟩) ∧
    (∀ g, typeName ∈ ALLOWED_IMPLS → svc.impls.lookup typeName = some g →
        RegisterImpl svc typeName f =
          ⟨.error ("implementation for " ++ typeName ++ " already present"), svc⟩ ∧
        (RegisterImpl svc typeName f).state.impls.lookup typeName = some g) ∧
    (typeName ∈ ALLOWED_IMPLS → svc.impls.lookup typeName = none →
        (RegisterImpl svc typeName f).ret =
          .ok (RegisterImpl svc typeName f).state ∧
        (RegisterImpl svc typeName f).state.impls.lookup typeName = some f) ∧
    (∀ t g, svc.impls.lookup t = some g →
        (RegisterImpl svc typeName f).state.impls.lookup t = some g) := by
  refine ⟨?_, ?_, ?_, ?_⟩
  · intro hnot
    simp [RegisterImpl, hnot]
  · intro g hmem hsome
    constructor <;> simp [RegisterImpl, hmem, hsome]
  · intro hmem hnone
    constructor <;> simp [RegisterImpl, hmem, hnone, List.lookup]
  · intro t g hg
    by_cases hmem : typeName ∈ ALLOWED_IMPLS
    · by_cases hsome : (svc.impls.lookup typeName).isSome
      · simp [RegisterImpl, hmem, hsome, hg]
      · have hne : (t == typeName) = false := by
          rcases Bool.eq_false_or_eq_true (t == typeName) with h | h
          · exfalso
            have ht : t = typeName := by simpa using h
            subst ht
            rw [hg] at hsome
            simp at hsome
          · exact h
        simp [RegisterImpl, hmem, hsome, List.lookup, hne, hg]
    · simp [RegisterImpl, hmem, hg]

/-- Witness for C2: an unknown type name is rejected; a duplicate
registration of `ImageSplice` is rejected and the first handler survives;
a fresh registration succeeds. -/
theorem claim2_witness :
    (RegisterImpl (⟨[]⟩ : AnalyticService Nat Nat) "Bogus"
        (fun _ r => HandlerResult.ok r) =
      ⟨.error ("unknown implementation type " ++ "Bogus" ++ " specified"), ⟨[]⟩⟩) ∧
    (RegisterImpl
        (⟨[("ImageSplice", fun _ r => HandlerResult.ok (r + 1))]⟩ :
          AnalyticService Nat Nat)
        "ImageSplice" (fun _ r => HandlerResult.ok r) =
      ⟨.error ("implementation for " ++ "ImageSplice" ++ " already present"),
        ⟨[("ImageSplice", fun _ r => HandlerResult.ok (r + 1))]⟩⟩) ∧
    ((RegisterImpl (⟨[]⟩ : AnalyticService Nat Nat) "ImageSplice"
        (fun _ r => HandlerResult.ok r)).state.impls.lookup "ImageSplice" =
      some (fun _ r => HandlerResult.ok r)) :=
  ⟨(claim2_register_errors ⟨[]⟩ "Bogus" _).1 (by decide),
   ((claim2_register_errors ⟨[("ImageSplice", fun _ r => HandlerResult.ok (r + 1))]⟩
       "ImageSplice" _).2.1 _ (by decide) rfl).1,
   ((claim2_register_errors ⟨[]⟩ "ImageSplice" _).2.2.1 (by decide) rfl).2⟩

/-- Claim C3: dispatching to an endpoint type with no registered handler
aborts with `UNIMPLEMENTED` and a message naming the type, leaves the
response untouched, and invokes no handler (the outcome is the same for
every registry in which the type is absent, whatever its handlers do). -/
theorem claim3_unregistered_unimplemented {Req Resp : Type}
    (impls : List (String × Handler Req Resp)) (epType : String)
    (req : Req) (resp : Resp) (h : impls.lookup epType = none) :
    CallEndpoint impls epType req resp =
      .abort .UNIMPLEMENTED ("Endpoint " ++ pyRepr epType ++ " not implemented") resp ∧
    ContainsStr ("Endpoint " ++ pyRepr epType ++ " not implemented") epType ∧
    (∀ (impls2 : List (String × Handler Req Resp)),
        impls2.lookup epType = none →
        CallEndpoint impls2 epType req resp = CallEndpoint impls epType req resp) := by
  refine ⟨by simp [CallEndpoint, h], ?_, ?_⟩
  · exact containsStr_pyRepr_end "Endpoint " " not implemented" epType
  · intro impls2 h2
    simp [CallEndpoint, h, h2]

/-- Witness for C3: the empty registry aborts an `ImageSplice` dispatch with
`UNIMPLEMENTED` and returns the response unchanged. -/
theorem claim3_witness :
    CallEndpoint ([] : List (String × Handler Nat Nat)) "ImageSplice" 0 5 =
      .abort .UNIMPLEMENTED ("Endpoint " ++ pyRepr "ImageSplice" ++ " not implemented") 5 :=
  (claim3_unregistered_unimplemented [] "ImageSplice" 0 5 rfl).1

/-- Claim C9: the dispatch layer never mutates the response object: on a
normal handler return it passes the handler-populated response through
unmodified, and on an unclassified handler failure the `UNKNOWN` abort
leaves the response exactly as the handler left it (partial mutation
preserved). -/
theorem claim9_response_untouched {Req Resp : Type}
    (impls : List (String × Handler Req Resp)) (epType : String)
    (f : Handler Req Resp) (req : Req) (resp : Resp)
    (hf : impls.lookup epType = some f) :
    (∀ r, f req resp = .ok r → CallEndpoint impls epType req resp = .ok r) ∧
    (∀ g r, f req resp = .otherError g r →
        CallEndpoint impls epType req resp =
          .abort .UNKNOWN
            ("Error processing endpoint " ++ pyRepr epType ++ ": " ++ g) r) := by
  constructor
  · intro r hr
    simp [CallEndpoint, hf, hr]
  · intro g r hg
    simp [CallEndpoint, hf, hg]

/-- Witness for C9: a handler that writes `41` and returns normally has its
response passed through; a handler that writes `13` and then raises an
unclassified exception leaves `13` in the abort outcome. -/
theorem claim9_witness :
    CallEndpoint
        [("ImageManipulation", fun (_ : Nat) (_ : Nat) => HandlerResult.ok 41)]
        "ImageManipulation" 0 0 = .ok 41 ∧
    CallEndpoint
        [("ImageManipulation",
          fun (_ : Nat) (_ : Nat) => HandlerResult.otherError "boom trace" 13)]
        "ImageManipulation" 0 0 =
      .abort .UNKNOWN
        ("Error processing endpoint " ++ pyRepr "ImageManipulation" ++ ": " ++ "boom trace")
        13 :=
  ⟨(claim9_response_untouched
      [("ImageManipulation", fun (_ : Nat) (_ : Nat) => HandlerResult.ok 41)]
      "ImageManipulation" (fun (_ : Nat) (_ : Nat) => HandlerResult.ok 41)
      0 0 rfl).1 41 rfl,
   (claim9_response_untouched
      [("ImageManipulation",
        fun (_ : Nat) (_ : Nat) => HandlerResult.otherError "boom trace" 13)]
      "ImageManipulation"
      (fun (_ : Nat) (_ : Nat) => HandlerResult.otherError "boom trace" 13)
      0 0 rfl).2 "boom trace" 13 rfl⟩

/-- Claim C10: every successful registration returns the service object
itself (the returned value coincides with the post-call state, enabling
fluent chaining), and each of the four public wrappers is exactly
`_RegisterImpl` at its class constant. -/
theorem claim10_register_returns_self {Req Resp : Type}
    (svc : AnalyticService Req Resp) (typeName : String) (f : Handler Req Resp) :
    (∀ s, (RegisterImpl svc typeName f).ret = .ok s →
        s = (RegisterImpl svc typeName f).state) ∧
    RegisterImageManipulation svc f = RegisterImpl svc IMAGE_MANIPULATION f ∧
    RegisterVideoManipulation svc f = RegisterImpl svc VIDEO_MANIPULATION f ∧
    RegisterImageSplice svc f = RegisterImpl svc IMAGE_SPLICE f ∧
    RegisterImageCameraMatch svc f = RegisterImpl svc IMAGE_CAMERA_MATCH f := by
  refine ⟨?_, rfl, rfl, rfl, rfl⟩
  intro s hs
  by_cases hmem : typeName ∈ ALLOWED_IMPLS
  · by_cases hsome : (svc.impls.lookup typeName).isSome
    · simp [RegisterImpl, hmem, hsome] at hs
    · simp [RegisterImpl, hmem, hsome] at hs ⊢
      exact hs.symm
  · simp [RegisterImpl, hmem] at hs

/-- Witness for C10: registering an image-manipulation handler on a fresh
service returns the updated service itself, so a second registration can be
chained on the returned value. -/
theorem claim10_witness :
    ((⟨[("ImageManipulation", fun (_ : Nat) (r : Nat) => HandlerResult.ok r)]⟩ :
        AnalyticService Nat Nat) =
      (RegisterImpl (⟨[]⟩ : AnalyticService Nat Nat) IMAGE_MANIPULATION
        (fun _ r => HandlerResult.ok r)).state) ∧
    ((RegisterImageSplice
        (⟨[("ImageManipulation", fun (_ : Nat) (r : Nat) => HandlerResult.ok r)]⟩ :
          AnalyticService Nat Nat)
        (fun _ r => HandlerResult.ok (r + 2))).ret =
      .ok ⟨[("ImageSplice", fun _ r => HandlerResult.ok (r + 2)),
            ("ImageManipulation", fun _ r => HandlerResult.ok r)]⟩) :=
  ⟨(claim10_register_returns_self ⟨[]⟩ IMAGE_MANIPULATION
      (fun _ r => HandlerResult.ok r)).1 _ rfl,
   rfl⟩

/-- Counterexample to C4: with a registered handler raising
`ValueError("bad crop")`, the line sent on the outbound pipe carries the
code field `"StatusCode.INVALID_ARGUMENT"` (Python `str()` of the status
enum member), so it is not the claimed line whose code field is the
error-kind name `"InvalidArgument"`, under either reading of the claimed
value field (the full abort message or the bare handler message). -/
theorem claim4_counterexample :
    serveOnce
        [("ImageManipulation",
          fun (_ : Nat) (r : Nat) => HandlerResult.valueError "bad crop" r)]
        (fun _ (v : Nat) => Except.ok v) 0
        (.ok ⟨some "imgmanip", some 3⟩) =
      .sentFailureLine
        "\x7b\"code\": \"StatusCode.INVALID_ARGUMENT\", \"value\": \"Endpoint \x27ImageManipulation\x27 invalid input: bad crop\"\x7d" ∧
    "\x7b\"code\": \"StatusCode.INVALID_ARGUMENT\", \"value\": \"Endpoint \x27ImageManipulation\x27 invalid input: bad crop\"\x7d" ≠
      "\x7b\"code\":\"InvalidArgument\",\"value\":\"Endpoint \x27ImageManipulation\x27 invalid input: bad crop\"\x7d" ∧
    "\x7b\"code\": \"StatusCode.INVALID_ARGUMENT\", \"value\": \"Endpoint \x27ImageManipulation\x27 invalid input: bad crop\"\x7d" ≠
      "\x7b\"code\":\"InvalidArgument\",\"value\":\"bad crop\"\x7d" := by
  refine ⟨by decide, by decide, by decide⟩

/-- Amended C4: when a handler raises a validation failure during
`serveOnce`, the line sent on the outbound pipe is the single structured
failure line `json.dumps` of the dict with code field
`str(StatusCode.INVALID_ARGUMENT) = "StatusCode.INVALID_ARGUMENT"` and
value field equal to the abort message (which contains the handler
message) — never a raw stack trace line. -/
theorem claim4_amended_code_field {Req Resp V : Type}
    (impls : List (String × Handler Req Resp))
    (parseDict : String → V → Except String Req) (zeroResp : Resp)
    (code ct : String) (v : V) (req : Req) (f : Handler Req Resp)
    (m : String) (r : Resp)
    (hct : TYPES.lookup code = some ct)
    (hv : parseDict code v = .ok req)
    (hf : impls.lookup ct = some f)
    (hm : f req zeroResp = .valueError m r) :
    serveOnce impls parseDict zeroResp (.ok ⟨some code, some v⟩) =
      .sentFailureLine
        (jsonDumpFailure StatusCode.INVALID_ARGUMENT.pyStr
          ("Endpoint " ++ pyRepr ct ++ " invalid input: " ++ m)) ∧
    StatusCode.INVALID_ARGUMENT.pyStr = "StatusCode.INVALID_ARGUMENT" ∧
    ContainsStr ("Endpoint " ++ pyRepr ct ++ " invalid input: " ++ m) m := by
  refine ⟨?_, rfl, containsStr_last ("Endpoint " ++ pyRepr ct ++ " invalid input: ") m⟩
  simp [serveOnce, hct, hv, CallEndpoint, hf, hm]

/-- Witness for the amended C4, at the concrete input of the
counterexample. -/
theorem claim4_witness :
    serveOnce
        [("ImageManipulation",
          fun (_ : Nat) (r : Nat) => HandlerResult.valueError "bad crop" r)]
        (fun _ (v : Nat) => Except.ok v) 0
        (.ok ⟨some "imgmanip", some 3⟩) =
      .sentFailureLine
        (jsonDumpFailure StatusCode.INVALID_ARGUMENT.pyStr
          ("Endpoint " ++ pyRepr "ImageManipulation" ++ " invalid input: " ++ "bad crop")) ∧
    StatusCode.INVALID_ARGUMENT.pyStr = "StatusCode.INVALID_ARGUMENT" :=
  ⟨(claim4_amended_code_field
      [("ImageManipulation",
        fun (_ : Nat) (r : Nat) => HandlerResult.valueError "bad crop" r)]
      (fun _ (v : Nat) => Except.ok v) 0
      "imgmanip" "ImageManipulation" 3 3
      (fun (_ : Nat) (r : Nat) => HandlerResult.valueError "bad crop" r)
      "bad crop" 0 rfl rfl rfl rfl).1,
   rfl⟩

/-- Claim C5: a request line that decodes all the way to a dispatch always
produces exactly one structured outcome line (success or failure, never a
propagated exception), and any step that propagates an exception does so
independently of the registry — no handler is ever reached on a malformed
input shape. -/
theorem claim5_structured_outcome {Req Resp V : Type}
    (impls : List (String × Handler Req Resp))
    (parseDict : String → V → Except String Req) (zeroResp : Resp)
    (recv : Except PyErr (PipeMsg V)) :
    (∀ code ct v req (m : PipeMsg V), recv = .ok m → m.typeField = some code →
        TYPES.lookup code = some ct → m.valueField = some v →
        parseDict code v = .ok req →
        IsStructuredOutcome (serveOnce impls parseDict zeroResp recv)) ∧
    (∀ e, serveOnce impls parseDict zeroResp recv = .raised e →
        ∀ (impls2 : List (String × Handler Req Resp)),
          serveOnce impls2 parseDict zeroResp recv = .raised e) := by
  constructor
  · intro code ct v req m hrecv htype hct hv hreq
    subst hrecv
    rcases hce : CallEndpoint impls ct req zeroResp with r | ⟨c, d, r2⟩ <;>
      simp [serveOnce, htype, hct, hv, hreq, hce, IsStructuredOutcome]
  · intro e he impls2
    rcases recv with e0 | m
    · simp [serveOnce] at he ⊢
      exact he
    · rcases htype : m.typeField with _ | code
      · simp [serveOnce, htype] at he ⊢
        exact he
      · rcases hct : TYPES.lookup code with _ | ct
        · simp [serveOnce, htype, hct] at he ⊢
          exact he
        · rcases hv : m.valueField with _ | v
          · simp [serveOnce, htype, hct, hv] at he ⊢
            exact he
          · rcases hreq : parseDict code v with pe | req
            · simp [serveOnce, htype, hct, hv, hreq] at he ⊢
              exact he
            · rcases hce : CallEndpoint impls ct req zeroResp with r | ⟨c, d, r2⟩ <;>
                simp [serveOnce, htype, hct, hv, hreq, hce] at he

/-- Witness for C5: a well-formed `imgmanip` request with a registered
handler yields a structured outcome; a message with no `type` field raises
the same exception under any registry. -/
theorem claim5_witness :
    IsStructuredOutcome
      (serveOnce
        [("ImageManipulation", fun (_ : Nat) (r : Nat) => HandlerResult.ok (r + 9))]
        (fun _ (v : Nat) => Except.ok v) 0
        (.ok ⟨some "imgmanip", some 3⟩)) ∧
    serveOnce ([] : List (String × Handler Nat Nat))
        (fun _ (v : Nat) => Except.ok v) 0
        (.ok ⟨none, some 3⟩) =
      .raised (.valueErrorExc "Message had no \x27type\x27 field") :=
  ⟨(claim5_structured_outcome
      [("ImageManipulation", fun (_ : Nat) (r : Nat) => HandlerResult.ok (r + 9))]
      (fun _ (v : Nat) => Except.ok v) 0
      (.ok ⟨some "imgmanip", some 3⟩)).1
      "imgmanip" "ImageManipulation" 3 3 ⟨some "imgmanip", some 3⟩ rfl rfl rfl rfl rfl,
   (claim5_structured_outcome
      [("ImageManipulation", fun (_ : Nat) (r : Nat) => HandlerResult.ok (r + 9))]
      (fun _ (v : Nat) => Except.ok v) 0
      (.ok ⟨none, some 3⟩)).2 _ rfl []⟩

/-- Claim C6: `serveOnce` catches only the abort carrier, which it encodes
as a failure wire line; a `receive`/`json.loads` failure (timeout or
invalid JSON), a missing `type` field, and an unrecognized wire short code
all propagate unchanged, and the first propagating event terminates the
`Run` serving loop. -/
theorem claim6_propagation {Req Resp V : Type}
    (impls : List (String × Handler Req Resp))
    (parseDict : String → V → Except String Req) (zeroResp : Resp) :
    (∀ e, serveOnce impls parseDict zeroResp (.error e) = .raised e) ∧
    (∀ m : PipeMsg V, m.typeField = none →
        serveOnce impls parseDict zeroResp (.ok m) =
          .raised (.valueErrorExc "Message had no \x27type\x27 field")) ∧
    (∀ (m : PipeMsg V) code, m.typeField = some code → TYPES.lookup code = none →
        serveOnce impls parseDict zeroResp (.ok m) = .raised (.keyError code)) ∧
    (∀ (m : PipeMsg V) code ct v req c d r2, m.typeField = some code →
        TYPES.lookup code = some ct → m.valueField = some v →
        parseDict code v = .ok req →
        CallEndpoint impls ct req zeroResp = .abort c d r2 →
        serveOnce impls parseDict zeroResp (.ok m) =
          .sentFailureLine (jsonDumpFailure c.pyStr d)) ∧
    (∀ good ev rest e,
        (∀ g ∈ good, ∀ e2, serveOnce impls parseDict zeroResp g ≠ .raised e2) →
        serveOnce impls parseDict zeroResp ev = .raised e →
        runPipe impls parseDict zeroResp (good ++ ev :: rest) =
          (good.map (serveOnce impls parseDict zeroResp), some e)) := by
  refine ⟨?_, ?_, ?_, ?_, ?_⟩
  · intro e
    rfl
  · intro m htype
    simp [serveOnce, htype]
  · intro m code htype hct
    simp [serveOnce, htype, hct]
  · intro m code ct v req c d r2 htype hct hv hreq habort
    simp [serveOnce, htype, hct, hv, hreq, habort]
  · intro good
    induction good with
    | nil =>
        intro ev rest e _ hev
        simp [runPipe, hev]
    | cons g gs ih =>
        intro ev rest e hgood hev
        have htail := ih ev rest e
          (fun x hx e2 => hgood x (List.mem_cons_of_mem g hx) e2) hev
        rcases hsg : serveOnce impls parseDict zeroResp g with r | l | e2
        · simp [runPipe, hsg, htail]
        · simp [runPipe, hsg, htail]
        · exact absurd hsg (hgood g (List.mem_cons_self g gs) e2)

/-- Witness for C6: a line that is not valid JSON propagates and terminates
the loop before any later event is served. -/
theorem claim6_witness :
    serveOnce ([] : List (String × Handler Nat Nat))
        (fun _ (v : Nat) => Except.ok v) 0
        (.error (.jsonDecodeError "bad json")) =
      .raised (.jsonDecodeError "bad json") ∧
    serveOnce ([] : List (String × Handler Nat Nat))
        (fun _ (v : Nat) => Except.ok v) 0
        (.ok ⟨some "bogus", some 3⟩) =
      .raised (.keyError "bogus") ∧
    runPipe ([] : List (String × Handler Nat Nat))
        (fun _ (v : Nat) => Except.ok v) 0
        ([] ++ .error (.jsonDecodeError "bad json") ::
          [.ok ⟨some "imgmanip", some 3⟩]) =
      ([], some (.jsonDecodeError "bad json")) :=
  ⟨(claim6_propagation ([] : List (String × Handler Nat Nat))
      (fun _ (v : Nat) => Except.ok v) 0).1 (.jsonDecodeError "bad json"),
   (claim6_propagation ([] : List (String × Handler Nat Nat))
      (fun _ (v : Nat) => Except.ok v) 0).2.2.1 ⟨some "bogus", some 3⟩ "bogus" rfl rfl,
   (claim6_propagation ([] : List (String × Handler Nat Nat))
      (fun _ (v : Nat) => Except.ok v) 0).2.2.2.2 []
      (.error (.jsonDecodeError "bad json")) [.ok ⟨some "imgmanip", some 3⟩]
      (.jsonDecodeError "bad json")
      (by intro g hg e2; simp at hg) rfl⟩

/-- Claim C7: `send` waits up to `timeout` seconds (0 meaning wait
indefinitely) for the outbound pipe to become writable; on expiry it raises
`FIFOTimeoutError` built from `op = "write"` and the timeout value (whose
message carries both), otherwise it writes the data followed by a line
terminator and flushes; `receive` is symmetric with `op = "read"` and
returns exactly the one line read. -/
theorem claim7_send_receive_timeout (data : String) (timeout : Nat)
    (ready : Bool) (nextLine : String) :
    (timeout ≠ 0 → ready = false →
        send data timeout ready = .timedOut "write" timeout ∧
        ContainsStr (fifoTimeoutMsg "write" timeout) "write" ∧
        ContainsStr (fifoTimeoutMsg "write" timeout) (toString timeout)) ∧
    (timeout = 0 → send data timeout ready = .wrote (data ++ "\n")) ∧
    (ready = true → send data timeout ready = .wrote (data ++ "\n")) ∧
    (timeout ≠ 0 → ready = false →
        receive timeout ready nextLine = .timedOut "read" timeout ∧
        ContainsStr (fifoTimeoutMsg "read" timeout) "read" ∧
        ContainsStr (fifoTimeoutMsg "read" timeout) (toString timeout)) ∧
    (timeout = 0 → receive timeout ready nextLine = .received nextLine) ∧
    (ready = true → receive timeout ready nextLine = .received nextLine) := by
  refine ⟨?_, ?_, ?_, ?_, ?_, ?_⟩
  · intro ht hr
    exact ⟨by simp [send, ht, hr], fifoTimeoutMsg_contains_op "write" timeout,
      fifoTimeoutMsg_contains_timeout "write" timeout⟩
  · intro ht
    simp [send, ht]
  · intro hr
    simp [send, hr]
  · intro ht hr
    exact ⟨by simp [receive, ht, hr], fifoTimeoutMsg_contains_op "read" timeout,
      fifoTimeoutMsg_contains_timeout "read" timeout⟩
  · intro ht
    simp [receive, ht]
  · intro hr
    simp [receive, hr]

/-- Witness for C7: with a 1-second timeout and no ready peer, `send` times
out with op `"write"`; with a ready peer it writes the framed line; the
symmetric facts hold for `receive`. -/
theorem claim7_witness :
    (send "abc" 1 false = .timedOut "write" 1 ∧
      ContainsStr (fifoTimeoutMsg "write" 1) "write" ∧
      ContainsStr (fifoTimeoutMsg "write" 1) (toString 1)) ∧
    send "abc" 0 false = .wrote ("abc" ++ "\n") ∧
    (receive 1 false "line one" = .timedOut "read" 1 ∧
      ContainsStr (fifoTimeoutMsg "read" 1) "read" ∧
      ContainsStr (fifoTimeoutMsg "read" 1) (toString 1)) ∧
    receive 0 false "line one" = .received "line one" :=
  ⟨(claim7_send_receive_timeout "abc" 1 false "line one").1 (by decide) rfl,
   (claim7_send_receive_timeout "abc" 0 false "line one").2.1 rfl,
   (claim7_send_receive_timeout "abc" 1 false "line one").2.2.2.1 (by decide) rfl,
   (claim7_send_receive_timeout "abc" 0 false "line one").2.2.2.2.1 rfl⟩

/-- Claim C8: the whole `serveOnce` protocol step runs between acquiring
and releasing the mutual-exclusion lock (no pipe event outside the
bracket), `close` brackets its pipe-handle accesses with the same lock, and
a request line that decodes to a dispatch yields exactly one response line,
sent after the request line was received and before the lock is
released. -/
theorem claim8_lock_and_single_response {Req Resp V : Type}
    (impls : List (String × Handler Req Resp))
    (parseDict : String → V → Except String Req) (zeroResp : Resp)
    (recv : Except PyErr (PipeMsg V)) (receiverOpen senderOpen : Bool) :
    (serveOnceTrace impls parseDict zeroResp recv =
        PipeEvent.acquireLock ::
          (serveOnceBodyEvents impls parseDict zeroResp recv ++
            [PipeEvent.releaseLock]) ∧
      PipeEvent.acquireLock ∉ serveOnceBodyEvents impls parseDict zeroResp recv ∧
      PipeEvent.releaseLock ∉ serveOnceBodyEvents impls parseDict zeroResp recv) ∧
    (closeTrace receiverOpen senderOpen =
        PipeEvent.acquireLock ::
          (closeBodyEvents receiverOpen senderOpen ++ [PipeEvent.releaseLock]) ∧
      PipeEvent.acquireLock ∉ closeBodyEvents receiverOpen senderOpen ∧
      PipeEvent.releaseLock ∉ closeBodyEvents receiverOpen senderOpen) ∧
    (∀ code ct v req (m : PipeMsg V), recv = .ok m → m.typeField = some code →
        TYPES.lookup code = some ct → m.valueField = some v →
        parseDict code v = .ok req →
        serveOnceTrace impls parseDict zeroResp recv =
          [PipeEvent.acquireLock, PipeEvent.recvLine, PipeEvent.sendLine,
            PipeEvent.releaseLock] ∧
        (serveOnceTrace impls parseDict zeroResp recv).count PipeEvent.sendLine = 1) := by
  have hbody : ∀ e, e ∈ serveOnceBodyEvents impls parseDict zeroResp recv →
      e = PipeEvent.recvLine ∨ e = PipeEvent.sendLine := by
    intro e he
    unfold serveOnceBodyEvents at he
    rcases List.mem_append.mp he with h | h
    · cases hb : recvReturnedLine recv <;> rw [hb] at h <;> simp at h
      exact Or.inl h
    · rcases hs : serveOnce impls parseDict zeroResp recv with r | l | e2 <;>
        rw [hs] at h <;> simp at h
      · exact Or.inr h
      · exact Or.inr h
  have hclose : ∀ e, e ∈ closeBodyEvents receiverOpen senderOpen →
      e = PipeEvent.closeReceiver ∨ e = PipeEvent.closeSender := by
    intro e he
    unfold closeBodyEvents at he
    rcases List.mem_append.mp he with h | h
    · cases receiverOpen <;> simp at h
      exact Or.inl h
    · cases senderOpen <;> simp at h
      exact Or.inr h
  refine ⟨⟨rfl, ?_, ?_⟩, ⟨rfl, ?_, ?_⟩, ?_⟩
  · intro hmem
    rcases hbody _ hmem with h | h <;> simp at h
  · intro hmem
    rcases hbody _ hmem with h | h <;> simp at h
  · intro hmem
    rcases hclose _ hmem with h | h <;> simp at h
  · intro hmem
    rcases hclose _ hmem with h | h <;> simp at h
  · intro code ct v req m hrecv htype hct hv hreq
    subst hrecv
    have h1 : serveOnceTrace impls parseDict zeroResp (.ok m) =
        [PipeEvent.acquireLock, PipeEvent.recvLine, PipeEvent.sendLine,
          PipeEvent.releaseLock] := by
      rcases hce : CallEndpoint impls ct req zeroResp with r | ⟨c, d, r2⟩ <;>
        simp [serveOnceTrace, serveOnceBodyEvents, recvReturnedLine, serveOnce,
          htype, hct, hv, hreq, hce]
    exact ⟨h1, by rw [h1]; rfl⟩

/-- Witness for C8: a well-formed `imgmanip` request against a registered
handler produces the four-event trace with exactly one send, bracketed by
the lock. -/
theorem claim8_witness :
    serveOnceTrace
        [("ImageManipulation", fun (_ : Nat) (r : Nat) => HandlerResult.ok r)]
        (fun _ (v : Nat) => Except.ok v) 0
        (.ok ⟨some "imgmanip", some 3⟩) =
      [PipeEvent.acquireLock, PipeEvent.recvLine, PipeEvent.sendLine,
        PipeEvent.releaseLock] ∧
    (serveOnceTrace
        [("ImageManipulation", fun (_ : Nat) (r : Nat) => HandlerResult.ok r)]
        (fun _ (v : Nat) => Except.ok v) 0
        (.ok ⟨some "imgmanip", some 3⟩)).count PipeEvent.sendLine = 1 :=
  (claim8_lock_and_single_response
      [("ImageManipulation", fun (_ : Nat) (r : Nat) => HandlerResult.ok r)]
      (fun _ (v : Nat) => Except.ok v) 0
      (.ok ⟨some "imgmanip", some 3⟩) true true).2.2
    "imgmanip" "ImageManipulation" 3 3 ⟨some "imgmanip", some 3⟩ rfl rfl rfl rfl rfl

end Medifor
